import Mathlib

/-!
Verification of the netdata v2 claim endpoint
(`src/web/api/v2/api_v2_claim.c`), shallowly embedded in Lean.

C strings are embedded as `List Char` (`CStr`), the 16-byte
`nd_uuid_t` as a list of byte values, and the module-level mutable
state (`netdata_random_session_id`, `netdata_random_session_id_filename`)
as an explicit `TokenState` threaded through the functions.  External
collaborators (the random generator, file writes, `claim_agent`,
`claim_reload_and_wait_online`, the cloud-status reader) are oracles
collected in a `ClaimEnv`.  Calls to `netdata_random_session_id_generate`,
`claim_agent` and `claim_reload_and_wait_online` are additionally recorded
as an event trace so that ordering properties can be stated.
-/

/-- C strings (`char *`) are embedded as lists of characters. -/
abbrev CStr := List Char

/-- The 16-byte `nd_uuid_t`, embedded as a list of byte values. -/
abbrev nd_uuid_t := List Nat

/-- The all-zero uuid; `uuid_is_null` tests against this value. -/
def uuid_nil : nd_uuid_t := List.replicate 16 0

/-- Value of one hexadecimal digit, accepting both cases (as `uuid_parse`
of libuuid does), `none` on a non-hex character. -/
def hex_val (c : Char) : Option Nat :=
  if 48 ≤ c.toNat ∧ c.toNat ≤ 57 then some (c.toNat - 48)
  else if 97 ≤ c.toNat ∧ c.toNat ≤ 102 then some (c.toNat - 87)
  else if 65 ≤ c.toNat ∧ c.toNat ≤ 70 then some (c.toNat - 55)
  else none

/-- Parse one byte written as two hex digits, returning it with the rest
of the input. -/
def parse_hex_byte : CStr → Option (Nat × CStr)
  | a :: b :: rest =>
    match hex_val a, hex_val b with
    | some x, some y => some (16 * x + y, rest)
    | _, _ => none
  | _ => none

/-- Parse `n` consecutive hex-encoded bytes. -/
def parse_hex_bytes : Nat → CStr → Option (List Nat × CStr)
  | 0, cs => some ([], cs)
  | n + 1, cs =>
    match parse_hex_byte cs with
    | none => none
    | some (b, cs1) =>
      match parse_hex_bytes n cs1 with
      | none => none
      | some (bs, cs2) => some (b :: bs, cs2)

/-- Consume one mandatory hyphen. -/
def expect_dash : CStr → Option CStr
  | c :: rest => if c = '-' then some rest else none
  | [] => none

/-- `uuid_parse` of libuuid: the input must be exactly of the canonical
form 8-4-4-4-12 hex digits separated by hyphens; the result is the
16-byte value.  Any malformed input yields `none`. -/
def uuid_parse (s : CStr) : Option nd_uuid_t := do
  let (b1, r1) ← parse_hex_bytes 4 s
  let r1 ← expect_dash r1
  let (b2, r2) ← parse_hex_bytes 2 r1
  let r2 ← expect_dash r2
  let (b3, r3) ← parse_hex_bytes 2 r2
  let r3 ← expect_dash r3
  let (b4, r4) ← parse_hex_bytes 2 r3
  let r4 ← expect_dash r4
  let (b5, r5) ← parse_hex_bytes 6 r4
  if r5 = [] then pure (b1 ++ b2 ++ b3 ++ b4 ++ b5) else none

/-- `netdata_random_session_id_matches` (api_v2_claim.c lines 59-72):
false when the stored uuid is null, false when the candidate does not
parse, otherwise the result of the byte comparison. -/
def netdata_random_session_id_matches (u : nd_uuid_t) (guid : CStr) : Bool :=
  if u = uuid_nil then false
  else
    match uuid_parse guid with
    | none => false
    | some v => u = v

/-- C-locale `isalnum` on a byte: ASCII digits and letters only
(api_v2_claim.c line 78 casts to `uint8_t` first). -/
def c_isalnum (c : Char) : Bool :=
  (48 ≤ c.toNat && c.toNat ≤ 57) ||
  (65 ≤ c.toNat && c.toNat ≤ 90) ||
  (97 ≤ c.toNat && c.toNat ≤ 122)

/-- One character of the claim-parameter whitelist
(api_v2_claim.c line 78). -/
def valid_param_char (c : Char) : Bool :=
  c_isalnum c || c = '.' || c = ',' || c = '-' || c = ':' || c = '/' || c = '_'

/-- The do-while loop of `check_claim_param` (lines 77-83). -/
def check_claim_param_loop : CStr → Bool
  | [] => true
  | c :: cs => if valid_param_char c then check_claim_param_loop cs else false

/-- `check_claim_param` (lines 74-86): a NULL or empty string is accepted,
otherwise every character must be on the whitelist. -/
def check_claim_param : Option CStr → Bool
  | none => true
  | some s => check_claim_param_loop s

/-- The five values of the `CLOUD_STATUS` enum exhaustively matched by
the switch in `api_v2_claim` (lines 120-131). -/
inductive CLOUD_STATUS
  | available
  | offline
  | indirect
  | online
  | banned
deriving DecidableEq

/-- The switch of `api_v2_claim` (lines 119-131) computing
`can_be_claimed` from the status. -/
def can_be_claimed_of : CLOUD_STATUS → Bool
  | .available => true
  | .offline => true
  | .indirect => true
  | .online => false
  | .banned => false

/-- Splitting a character list at a separator character; the result is
the list of (possibly empty) segments, mirroring repeated `strsep`. -/
def splitOnChar (sep : Char) : CStr → List CStr
  | [] => [[]]
  | c :: rest =>
    match splitOnChar sep rest with
    | [] => [[]]
    | g :: gs => if c = sep then [] :: g :: gs else (c :: g) :: gs

/-- Modelled from the spec: the libnetdata helper
`strsep_skip_consecutive_separators` is not part of the excerpt; per its
name and the spec section on query-encoded parameters it behaves as
`strsep` that skips consecutive separators, i.e. it returns the next
non-empty token.  `extract_param` applies the loop body of
`api_v2_claim` (lines 94-110) to one non-empty `&`-segment: the name is
the first non-empty `=`-token of the segment, the value is the remainder
of the segment after that token; a segment with no remainder (no `=`
after the name) or an empty remainder yields nothing. -/
def extract_param (seg : CStr) : Option (CStr × CStr) :=
  match (splitOnChar '=' seg).dropWhile (· = []) with
  | [] => none
  | name :: rest =>
    if rest = [] then none
    else
      let v := List.intercalate ['='] rest
      if v = [] then none else some (name, v)

/-- The (name, value) pairs processed by the parameter loop of
`api_v2_claim` (lines 94-110), in order: one per non-empty `&`-segment
that yields a name and a non-empty value. -/
def params_list (url : CStr) : List (CStr × CStr) :=
  ((splitOnChar '&' url).filter (· ≠ [])).filterMap extract_param

/-- The four local variables of `api_v2_claim` holding the recognized
query parameters (lines 89-92). -/
structure ClaimArgs where
  key : Option CStr
  token : Option CStr
  rooms : Option CStr
  base_url : Option CStr
deriving DecidableEq

def key_name : CStr := "key".data
def token_name : CStr := "token".data
def rooms_name : CStr := "rooms".data
def url_name : CStr := "url".data

/-- One iteration of the assignment chain (lines 102-109). -/
def assign_param (a : ClaimArgs) (p : CStr × CStr) : ClaimArgs :=
  if p.1 = key_name then { a with key := some p.2 }
  else if p.1 = token_name then { a with token := some p.2 }
  else if p.1 = rooms_name then { a with rooms := some p.2 }
  else if p.1 = url_name then { a with base_url := some p.2 }
  else a

/-- The whole parameter-extraction loop of `api_v2_claim`
(lines 94-110). -/
def parse_claim_params (url : CStr) : ClaimArgs :=
  (params_list url).foldl assign_param ⟨none, none, none, none⟩

/-- The last value assigned to one recognized name by the loop:
`none` when the name never occurs with a usable value. -/
def lookupLast (n : CStr) (ps : List (CStr × CStr)) : Option CStr :=
  ps.foldl (fun acc p => if p.1 = n then some p.2 else acc) none

/-- Calls to external collaborators recorded in order. -/
inductive ClaimEvent
  | generate
  | claimAgent
  | reload
deriving DecidableEq

/-- The fields appended to the response buffer, in order. -/
inductive JsonField
  | cloudStatus (s : CLOUD_STATUS)
  | canBeClaimed (b : Bool)
  | success (b : Bool)
  | message (s : CStr)
  | keyFilename (s : CStr)
  | cmd (s : CStr)
  | help (s : CStr)
  | agentsV2
deriving DecidableEq

/-- The response body: plain text after `buffer_reset`/`buffer_strcat`,
or the JSON document built through the `buffer_json_*` calls. -/
inductive RespBody
  | text (s : CStr)
  | json (fields : List JsonField)
deriving DecidableEq

/-- What the handler does at the end of the request: return an HTTP code
with a body, or dereference a NULL filename (undefined behavior,
modelled as `crash`). -/
inductive Outcome
  | ok (code : Nat) (body : RespBody)
  | crash
deriving DecidableEq

def HTTP_RESP_OK : Nat := 200
def HTTP_RESP_FORBIDDEN : Nat := 403
def HTTP_RESP_BAD_REQUEST : Nat := 400

/-- The module-level mutable state of api_v2_claim.c (lines 11-12):
the live uuid, the recorded filename (NULL until a write succeeds), and
a counter of `generate` calls used to index the oracle streams. -/
structure TokenState where
  uuid : nd_uuid_t
  filename : Option CStr
  gen_count : Nat
deriving DecidableEq

/-- Oracles for the external collaborators: `fresh k` is the uuid
produced by the k-th `uuid_generate_random` of the request, `writeOk k`
whether the k-th file write succeeds, `status` what the first
`buffer_json_cloud_status` reports, `status2` what the second one
(line 168) reports, `claimOk` the result of `claim_agent`,
`failureReason` what `claim_agent_failure_reason_get` returns, and
`varlib` the configured state directory. -/
structure ClaimEnv where
  status : CLOUD_STATUS
  status2 : CLOUD_STATUS
  fresh : Nat → nd_uuid_t
  writeOk : Nat → Bool
  claimOk : Bool
  failureReason : CStr
  varlib : CStr

/-- The fixed path of the proof-token file (line 21). -/
def session_id_filename (env : ClaimEnv) : CStr :=
  env.varlib ++ "/netdata_random_session_id".data

/-- The mode argument of the `open` call creating the proof-token file,
exactly as written in the source (line 28): the literal `640`, which in
C is a decimal integer. -/
def session_id_file_open_mode : Nat := 640

/-- `netdata_random_session_id_generate` (lines 14-50): the in-memory
uuid is always replaced; the filename is recorded only when the write
succeeded; the write result is returned.  Returns the new state, the
success flag, and the recorded event. -/
def netdata_random_session_id_generate (env : ClaimEnv) (st : TokenState) :
    TokenState × Bool × List ClaimEvent :=
  let newUuid := env.fresh st.gen_count
  let ret := env.writeOk st.gen_count
  let fn := session_id_filename env
  (⟨newUuid, if ret then some fn else st.filename, st.gen_count + 1⟩,
   ret, [ClaimEvent.generate])

/-- `netdata_random_session_id_get_filename` (lines 52-57): generate a
token first if no filename was ever recorded; the returned pointer is
still NULL (`none`) when that generation also failed to write. -/
def netdata_random_session_id_get_filename (env : ClaimEnv) (st : TokenState) :
    TokenState × Option CStr × List ClaimEvent :=
  match st.filename with
  | none =>
    let g := netdata_random_session_id_generate env st
    (g.1, g.1.filename, g.2.2)
  | some fn => (st, some fn, [])

def invalid_key_msg : CStr := "invalid key".data
def invalid_params_msg : CStr := "invalid parameters".data
def ok_msg : CStr := "ok".data

/-- The POSIX help message (line 193). -/
def help_msg_posix : CStr :=
  "We need to verify this server is yours. SSH to this server and run this command. It will give you a UUID. Copy and paste this UUID to this box:".data

/-- The instructions block of `api_v2_claim` (lines 175-206, POSIX
branch) followed by `buffer_json_agents_v2` and the final return
(lines 208-211).  When `can_be_claimed` is still true the filename is
fetched; a NULL filename is then passed to `strchr` (line 197), which
is the modelled crash. -/
def render_instructions (env : ClaimEnv) (st : TokenState) (cbc : Bool)
    (wb : List JsonField) (evs : List ClaimEvent) : Outcome × TokenState × List ClaimEvent :=
  if cbc then
    match netdata_random_session_id_get_filename env st with
    | (st2, some fn, ev2) =>
      let quote : CStr := if fn.contains ' ' then ['"'] else []
      let cmdStr : CStr := "sudo cat ".data ++ quote ++ fn ++ quote
      (Outcome.ok HTTP_RESP_OK (RespBody.json (wb ++
         [JsonField.keyFilename fn, JsonField.cmd cmdStr,
          JsonField.help help_msg_posix, JsonField.agentsV2])),
       st2, evs ++ ev2)
    | (st2, none, ev2) => (Outcome.crash, st2, evs ++ ev2)
  else
    (Outcome.ok HTTP_RESP_OK (RespBody.json (wb ++ [JsonField.agentsV2])), st, evs)

/-- The parameter-validation condition of `api_v2_claim` (line 143). -/
def claim_params_bad (q : ClaimArgs) : Bool :=
  q.token.isNone || q.base_url.isNone ||
  !check_claim_param q.token || !check_claim_param q.base_url ||
  (q.rooms.isSome && !check_claim_param q.rooms)

/-- The `can_be_claimed && key` branch of `api_v2_claim`
(lines 135-173): authenticate, validate, rotate, claim, rebuild the
buffer, then render instructions when the host can still be claimed. -/
def claim_attempt (env : ClaimEnv) (st : TokenState) (q : ClaimArgs)
    (key : CStr) : Outcome × TokenState × List ClaimEvent :=
  if netdata_random_session_id_matches st.uuid key = false then
    let g := netdata_random_session_id_generate env st
    (Outcome.ok HTTP_RESP_FORBIDDEN (RespBody.text invalid_key_msg), g.1,
     [ClaimEvent.generate])
  else if claim_params_bad q then
    let g := netdata_random_session_id_generate env st
    (Outcome.ok HTTP_RESP_BAD_REQUEST (RespBody.text invalid_params_msg), g.1,
     [ClaimEvent.generate])
  else
    let g := netdata_random_session_id_generate env st
    if env.claimOk then
      (Outcome.ok HTTP_RESP_OK (RespBody.json
         [JsonField.cloudStatus env.status2, JsonField.success true,
          JsonField.message ok_msg, JsonField.agentsV2]),
       g.1, [ClaimEvent.generate, ClaimEvent.claimAgent, ClaimEvent.reload])
    else
      render_instructions env g.1 true
        [JsonField.cloudStatus env.status2, JsonField.success false,
         JsonField.message env.failureReason]
        [ClaimEvent.generate, ClaimEvent.claimAgent]

/-- `api_v2_claim` (lines 88-212): parse the query, compute the status
and `can_be_claimed`, run the claim attempt when a key was supplied and
claiming is possible, then render the final report. -/
def api_v2_claim (env : ClaimEnv) (st : TokenState) (url : CStr) :
    Outcome × TokenState × List ClaimEvent :=
  let q := parse_claim_params url
  let can0 := can_be_claimed_of env.status
  let wb1 := [JsonField.cloudStatus env.status, JsonField.canBeClaimed can0]
  match q.key with
  | some key =>
    if can0 then claim_attempt env st q key
    else render_instructions env st false wb1 []
  | none => render_instructions env st can0 wb1 []

def api_outcome (env : ClaimEnv) (st : TokenState) (url : CStr) : Outcome :=
  (api_v2_claim env st url).1

def api_events (env : ClaimEnv) (st : TokenState) (url : CStr) : List ClaimEvent :=
  (api_v2_claim env st url).2.2

/-- Whether a claim attempt occurs on the request: claiming possible, a
key supplied, the key matches and the parameters validate (the guard of
line 150 being reached). -/
def claim_attempted (env : ClaimEnv) (st : TokenState) (q : ClaimArgs) : Bool :=
  can_be_claimed_of env.status && q.key.isSome &&
  netdata_random_session_id_matches st.uuid (q.key.getD []) &&
  !claim_params_bad q

/-- The authentication-failure condition (line 136 reached and false). -/
def auth_fail (env : ClaimEnv) (st : TokenState) (q : ClaimArgs) : Bool :=
  can_be_claimed_of env.status && q.key.isSome &&
  !netdata_random_session_id_matches st.uuid (q.key.getD [])

/-- The validation-failure condition (line 143 reached and true). -/
def validation_fail (env : ClaimEnv) (st : TokenState) (q : ClaimArgs) : Bool :=
  can_be_claimed_of env.status && q.key.isSome &&
  netdata_random_session_id_matches st.uuid (q.key.getD []) &&
  claim_params_bad q

/-- The condition under which the handler dereferences a NULL filename:
the instructions block runs while no filename was ever recorded and the
write of every `generate` reached on the way failed. -/
def crash_cond (env : ClaimEnv) (st : TokenState) (q : ClaimArgs) : Bool :=
  can_be_claimed_of env.status &&
  (if q.key.isSome then
     claim_attempted env st q && !env.claimOk &&
     !env.writeOk st.gen_count && st.filename.isNone &&
     !env.writeOk (st.gen_count + 1)
   else st.filename.isNone && !env.writeOk st.gen_count)

/-- Whether a field list carries a `can_be_claimed` member. -/
def hasCanBeClaimed (fs : List JsonField) : Bool :=
  fs.any fun f => match f with | .canBeClaimed _ => true | _ => false

/-- Whether a field list carries a `success` member. -/
def hasSuccess (fs : List JsonField) : Bool :=
  fs.any fun f => match f with | .success _ => true | _ => false

/-- Whether a field list carries a `message` member. -/
def hasMessage (fs : List JsonField) : Bool :=
  fs.any fun f => match f with | .message _ => true | _ => false

/-! ### Concrete inputs used by counterexamples and witnesses -/

/-- A live token value: 15 zero bytes followed by one. -/
def uuid_one : nd_uuid_t := List.replicate 15 0 ++ [1]

/-- The canonical string form of `uuid_one`. -/
def uuid_one_str : CStr := "00000000-0000-0000-0000-000000000001".data

/-- The uninitialized module state: null uuid, no recorded filename. -/
def st_zero : TokenState := ⟨uuid_nil, none, 0⟩

/-- A state with a live token and a recorded filename. -/
def st_live : TokenState :=
  ⟨uuid_one, some "/var/lib/netdata/netdata_random_session_id".data, 0⟩

/-- Claiming possible (OFFLINE), file writes succeed. -/
def env_c1 : ClaimEnv :=
  { status := .offline, status2 := .offline, fresh := fun _ => uuid_one,
    writeOk := fun _ => true, claimOk := false, failureReason := [],
    varlib := "/var/lib/netdata".data }

/-- Claiming possible (AVAILABLE), every file write fails. -/
def env_crash : ClaimEnv :=
  { status := .available, status2 := .available, fresh := fun _ => uuid_one,
    writeOk := fun _ => false, claimOk := false, failureReason := [],
    varlib := "/var/lib/netdata".data }

/-- Claiming possible (OFFLINE), every file write fails; used for the
write-failure analysis. -/
def env_crash9 : ClaimEnv :=
  { status := .offline, status2 := .offline, fresh := fun _ => uuid_one,
    writeOk := fun _ => false, claimOk := false, failureReason := [],
    varlib := "/var/lib/netdata".data }

/-- A query that carries no recognized parameter. -/
def url9 : CStr := "foo".data

/-- Claiming possible, the external claim call succeeds. -/
def env_ok : ClaimEnv :=
  { status := .available, status2 := .online, fresh := fun _ => uuid_nil,
    writeOk := fun _ => true, claimOk := true, failureReason := [],
    varlib := "/var/lib/netdata".data }

/-- Host already connected: status BANNED, nothing can be claimed. -/
def env_banned : ClaimEnv :=
  { status := .banned, status2 := .banned, fresh := fun _ => uuid_nil,
    writeOk := fun _ => true, claimOk := false, failureReason := [],
    varlib := "/var/lib/netdata".data }

/-- A complete well-formed claim query whose key matches `st_live`. -/
def url_claim : CStr :=
  "key=00000000-0000-0000-0000-000000000001&token=abc&url=https://h".data

/-! ### Helper lemmas -/

theorem check_claim_param_loop_eq_all (s : CStr) :
    check_claim_param_loop s = s.all valid_param_char := by
  induction s with
  | nil => rfl
  | cons c cs ih =>
    unfold check_claim_param_loop
    by_cases h : valid_param_char c = true <;> simp [h, List.all_cons, ih]

theorem c_isalnum_eq_isAlphanum (c : Char) : c_isalnum c = c.isAlphanum := by
  have e48 : (48 : UInt32).toBitVec.toNat = 48 := rfl
  have e57 : (57 : UInt32).toBitVec.toNat = 57 := rfl
  have e65 : (65 : UInt32).toBitVec.toNat = 65 := rfl
  have e90 : (90 : UInt32).toBitVec.toNat = 90 := rfl
  have e97 : (97 : UInt32).toBitVec.toNat = 97 := rfl
  have e122 : (122 : UInt32).toBitVec.toNat = 122 := rfl
  rw [Bool.eq_iff_iff]
  simp only [c_isalnum, Char.isAlphanum, Char.isAlpha, Char.isUpper, Char.isLower,
    Char.isDigit, Char.toNat, UInt32.toNat, ge_iff_le, UInt32.le_def, BitVec.le_def,
    e48, e57, e65, e90, e97, e122, Bool.or_eq_true, Bool.and_eq_true,
    decide_eq_true_eq]
  omega

theorem valid_param_char_iff (c : Char) :
    valid_param_char c = true ↔
    (c.isAlphanum = true ∨ c = '.' ∨ c = ',' ∨ c = '-' ∨ c = ':' ∨ c = '/' ∨ c = '_') := by
  simp only [valid_param_char, c_isalnum_eq_isAlphanum c, Bool.or_eq_true,
    decide_eq_true_eq, or_assoc]

theorem render_instructions_events (env : ClaimEnv) (st : TokenState) (cbc : Bool)
    (wb : List JsonField) (evs : List ClaimEvent) :
    (render_instructions env st cbc wb evs).2.2 =
    evs ++ (if cbc = true ∧ st.filename = none then [ClaimEvent.generate] else []) := by
  cases cbc with
  | false => simp [render_instructions]
  | true =>
    cases hf : st.filename with
    | some fn => simp [render_instructions, netdata_random_session_id_get_filename, hf]
    | none =>
      cases hw : env.writeOk st.gen_count <;>
        simp [render_instructions, netdata_random_session_id_get_filename, hf,
              netdata_random_session_id_generate, hw]

theorem render_instructions_crash_iff (env : ClaimEnv) (st : TokenState) (cbc : Bool)
    (wb : List JsonField) (evs : List ClaimEvent) :
    (render_instructions env st cbc wb evs).1 = Outcome.crash ↔
    (cbc = true ∧ st.filename = none ∧ env.writeOk st.gen_count = false) := by
  cases cbc with
  | false => simp [render_instructions]
  | true =>
    cases hf : st.filename with
    | some fn => simp [render_instructions, netdata_random_session_id_get_filename, hf]
    | none =>
      cases hw : env.writeOk st.gen_count <;>
        simp [render_instructions, netdata_random_session_id_get_filename, hf,
              netdata_random_session_id_generate, hw]

theorem render_instructions_ok (env : ClaimEnv) (st : TokenState) (cbc : Bool)
    (wb : List JsonField) (evs : List ClaimEvent)
    (h : (render_instructions env st cbc wb evs).1 ≠ Outcome.crash) :
    ∃ tail, (render_instructions env st cbc wb evs).1 =
        Outcome.ok HTTP_RESP_OK (RespBody.json (wb ++ tail)) ∧
      hasCanBeClaimed tail = false ∧ hasSuccess tail = false ∧
      hasMessage tail = false := by
  cases cbc with
  | false =>
    exact ⟨[JsonField.agentsV2], by simp [render_instructions], by
      simp [hasCanBeClaimed], by simp [hasSuccess], by simp [hasMessage]⟩
  | true =>
    cases hf : st.filename with
    | some fn =>
      refine ⟨[JsonField.keyFilename fn,
        JsonField.cmd ("sudo cat ".data ++ (if fn.contains ' ' then (['"'] : CStr) else [])
          ++ fn ++ (if fn.contains ' ' then (['"'] : CStr) else [])),
        JsonField.help help_msg_posix, JsonField.agentsV2], ?_, ?_, ?_, ?_⟩
      · simp [render_instructions, netdata_random_session_id_get_filename, hf]
      · simp [hasCanBeClaimed]
      · simp [hasSuccess]
      · simp [hasMessage]
    | none =>
      cases hw : env.writeOk st.gen_count with
      | false =>
        exact absurd (by simp [render_instructions,
          netdata_random_session_id_get_filename, hf,
          netdata_random_session_id_generate, hw]) h
      | true =>
        refine ⟨[JsonField.keyFilename (session_id_filename env),
          JsonField.cmd ("sudo cat ".data
            ++ (if (session_id_filename env).contains ' ' then (['"'] : CStr) else [])
            ++ session_id_filename env
            ++ (if (session_id_filename env).contains ' ' then (['"'] : CStr) else [])),
          JsonField.help help_msg_posix, JsonField.agentsV2], ?_, ?_, ?_, ?_⟩
        · simp [render_instructions, netdata_random_session_id_get_filename, hf,
                netdata_random_session_id_generate, hw]
        · simp [hasCanBeClaimed]
        · simp [hasSuccess]
        · simp [hasMessage]

theorem splitOnChar_ne_nil (sep : Char) (cs : CStr) : splitOnChar sep cs ≠ [] := by
  cases cs with
  | nil => simp [splitOnChar]
  | cons c rest =>
    unfold splitOnChar
    cases h : splitOnChar sep rest with
    | nil => simp
    | cons g gs => by_cases hc : c = sep <;> simp [hc]

theorem splitOnChar_append (sep : Char) (u v : CStr) :
    splitOnChar sep (u ++ sep :: v) = splitOnChar sep u ++ splitOnChar sep v := by
  induction u with
  | nil =>
    have h1 : splitOnChar sep (sep :: v) =
        match splitOnChar sep v with
        | [] => [[]]
        | g :: gs => if sep = sep then [] :: g :: gs else (sep :: g) :: gs := rfl
    rw [List.nil_append, h1]
    cases h : splitOnChar sep v with
    | nil => exact absurd h (splitOnChar_ne_nil sep v)
    | cons g gs => simp [splitOnChar]
  | cons c cs ih =>
    have h1 : splitOnChar sep (c :: (cs ++ sep :: v)) =
        match splitOnChar sep (cs ++ sep :: v) with
        | [] => [[]]
        | g :: gs => if c = sep then [] :: g :: gs else (c :: g) :: gs := rfl
    have h2 : splitOnChar sep (c :: cs) =
        match splitOnChar sep cs with
        | [] => [[]]
        | g :: gs => if c = sep then [] :: g :: gs else (c :: g) :: gs := rfl
    rw [List.cons_append, h1, ih, h2]
    cases h : splitOnChar sep cs with
    | nil => exact absurd h (splitOnChar_ne_nil sep cs)
    | cons g gs => by_cases hc : c = sep <;> simp [hc]

theorem assign_param_key (a : ClaimArgs) (p : CStr × CStr) :
    (assign_param a p).key = if p.1 = key_name then some p.2 else a.key := by
  unfold assign_param
  by_cases h1 : p.1 = key_name
  · simp +decide [h1]
  · by_cases h2 : p.1 = token_name
    · simp +decide [h1, h2]
    · by_cases h3 : p.1 = rooms_name
      · simp +decide [h1, h2, h3]
      · by_cases h4 : p.1 = url_name
        · simp +decide [h1, h2, h3, h4]
        · simp [h1, h2, h3, h4]

theorem assign_param_token (a : ClaimArgs) (p : CStr × CStr) :
    (assign_param a p).token = if p.1 = token_name then some p.2 else a.token := by
  unfold assign_param
  by_cases h1 : p.1 = key_name
  · simp +decide [h1]
  · by_cases h2 : p.1 = token_name
    · simp +decide [h1, h2]
    · by_cases h3 : p.1 = rooms_name
      · simp +decide [h1, h2, h3]
      · by_cases h4 : p.1 = url_name
        · simp +decide [h1, h2, h3, h4]
        · simp [h1, h2, h3, h4]

theorem assign_param_rooms (a : ClaimArgs) (p : CStr × CStr) :
    (assign_param a p).rooms = if p.1 = rooms_name then some p.2 else a.rooms := by
  unfold assign_param
  by_cases h1 : p.1 = key_name
  · simp +decide [h1]
  · by_cases h2 : p.1 = token_name
    · simp +decide [h1, h2]
    · by_cases h3 : p.1 = rooms_name
      · simp +decide [h1, h2, h3]
      · by_cases h4 : p.1 = url_name
        · simp +decide [h1, h2, h3, h4]
        · simp [h1, h2, h3, h4]

theorem assign_param_base_url (a : ClaimArgs) (p : CStr × CStr) :
    (assign_param a p).base_url = if p.1 = url_name then some p.2 else a.base_url := by
  unfold assign_param
  by_cases h1 : p.1 = key_name
  · simp +decide [h1]
  · by_cases h2 : p.1 = token_name
    · simp +decide [h1, h2]
    · by_cases h3 : p.1 = rooms_name
      · simp +decide [h1, h2, h3]
      · by_cases h4 : p.1 = url_name
        · simp +decide [h1, h2, h3, h4]
        · simp [h1, h2, h3, h4]

theorem foldl_assign_key (ps : List (CStr × CStr)) (a : ClaimArgs) :
    (ps.foldl assign_param a).key =
    ps.foldl (fun acc p => if p.1 = key_name then some p.2 else acc) a.key := by
  induction ps generalizing a with
  | nil => rfl
  | cons p ps ih => rw [List.foldl_cons, List.foldl_cons, ih, assign_param_key]

theorem foldl_assign_token (ps : List (CStr × CStr)) (a : ClaimArgs) :
    (ps.foldl assign_param a).token =
    ps.foldl (fun acc p => if p.1 = token_name then some p.2 else acc) a.token := by
  induction ps generalizing a with
  | nil => rfl
  | cons p ps ih => rw [List.foldl_cons, List.foldl_cons, ih, assign_param_token]

theorem foldl_assign_rooms (ps : List (CStr × CStr)) (a : ClaimArgs) :
    (ps.foldl assign_param a).rooms =
    ps.foldl (fun acc p => if p.1 = rooms_name then some p.2 else acc) a.rooms := by
  induction ps generalizing a with
  | nil => rfl
  | cons p ps ih => rw [List.foldl_cons, List.foldl_cons, ih, assign_param_rooms]

theorem foldl_assign_base_url (ps : List (CStr × CStr)) (a : ClaimArgs) :
    (ps.foldl assign_param a).base_url =
    ps.foldl (fun acc p => if p.1 = url_name then some p.2 else acc) a.base_url := by
  induction ps generalizing a with
  | nil => rfl
  | cons p ps ih => rw [List.foldl_cons, List.foldl_cons, ih, assign_param_base_url]

/-! ### Claim theorems -/

/-- C2: for every uuid state and candidate string, `matches` returns
true iff a live token exists (the stored uuid is not the all-zero
value), the candidate parses as a uuid, and the parsed value is
byte-equal to the stored one; malformed candidates return false
(fail closed). -/
theorem C2_matches_iff (u : nd_uuid_t) (c : CStr) :
    netdata_random_session_id_matches u c = true ↔
    (u ≠ uuid_nil ∧ uuid_parse c = some u) := by
  unfold netdata_random_session_id_matches
  by_cases h : u = uuid_nil
  · simp [h]
  · cases hp : uuid_parse c with
    | none => simp [h, hp]
    | some v => simp [h, hp, eq_comm]

/-- C3: `check_claim_param` accepts an absent (NULL) or empty string,
and a non-empty string exactly when every character is ASCII
alphanumeric or one of the six punctuation characters; it accepts the
three positive examples and rejects the three negative ones. -/
theorem C3_check_claim_param_whitelist :
    check_claim_param none = true ∧
    check_claim_param (some []) = true ∧
    (∀ s : CStr, check_claim_param (some s) = true ↔
      ∀ c ∈ s, (c.isAlphanum = true ∨ c = '.' ∨ c = ',' ∨ c = '-' ∨
        c = ':' ∨ c = '/' ∨ c = '_')) ∧
    check_claim_param (some "abc123".data) = true ∧
    check_claim_param (some "room-1,room_2".data) = true ∧
    check_claim_param (some "https://host.example/path".data) = true ∧
    check_claim_param (some "abc;rm -rf".data) = false ∧
    check_claim_param (some "a b".data) = false ∧
    check_claim_param (some ("token".data ++ [Char.ofNat 39])) = false := by
  refine ⟨rfl, rfl, ?_, by decide, by decide, by decide, by decide, by decide, by decide⟩
  intro s
  show check_claim_param_loop s = true ↔ _
  rw [check_claim_param_loop_eq_all, List.all_eq_true]
  constructor
  · intro h c hc
    exact (valid_param_char_iff c).mp (h c hc)
  · intro h c hc
    exact (valid_param_char_iff c).mpr (h c hc)

/-- C4: `can_be_claimed` is computed true exactly for the statuses
AVAILABLE, OFFLINE and INDIRECT, and false exactly for ONLINE and
BANNED. -/
theorem C4_can_be_claimed_iff (s : CLOUD_STATUS) :
    (can_be_claimed_of s = true ↔
      (s = .available ∨ s = .offline ∨ s = .indirect)) ∧
    (can_be_claimed_of s = false ↔ (s = .online ∨ s = .banned)) := by
  cases s <;> simp [can_be_claimed_of]

/-- C8: the mode argument of the `open` call that creates the
proof-token file is the decimal literal 640, which is octal 1200
(sticky bit set, owner write-only), not the intended 0640. -/
theorem C8_open_mode_bug :
    session_id_file_open_mode = 0o1200 ∧ session_id_file_open_mode ≠ 0o640 := by
  decide

/-- C10 counterexample: the claim says a parameter whose name is empty
is treated as absent, but for the query segment starting with an
equals sign followed by a recognized name and a value, the
separator-skipping extraction uses that name: the query string
consisting of the characters of the segment starting with the equals
sign, then the name key, an equals sign and the value v, sets the key
parameter to v instead of ignoring the segment. -/
theorem C10_counterexample :
    ("=key=v".data).head? = some '=' ∧
    (parse_claim_params "=key=v".data).key = some ['v'] := by decide

/-- C10 amended: parameter extraction processes the non-empty
`&`-segments independently; for each of the four recognized names the
resulting value is the last usable occurrence of that name (unknown
names are ignored); a segment with an empty value or with no value is
dropped, and a segment whose name part is empty is dropped unless
skipping the leading `=` separators yields a recognized name with a
non-empty value, in which case that name and value are used. -/
theorem C10_param_extraction :
    (∀ u v : CStr, params_list (u ++ '&' :: v) = params_list u ++ params_list v) ∧
    (∀ url : CStr,
      (parse_claim_params url).key = lookupLast key_name (params_list url) ∧
      (parse_claim_params url).token = lookupLast token_name (params_list url) ∧
      (parse_claim_params url).rooms = lookupLast rooms_name (params_list url) ∧
      (parse_claim_params url).base_url = lookupLast url_name (params_list url)) ∧
    params_list "key=".data = [] ∧
    params_list "key".data = [] ∧
    params_list "=abc".data = [] ∧
    params_list "=key=v".data = [(key_name, ['v'])] := by
  refine ⟨?_, ?_, by decide, by decide, by decide, by decide⟩
  · intro u v
    unfold params_list
    rw [splitOnChar_append, List.filter_append, List.filterMap_append]
  · intro url
    exact ⟨foldl_assign_key (params_list url) ⟨none, none, none, none⟩,
      foldl_assign_token (params_list url) ⟨none, none, none, none⟩,
      foldl_assign_rooms (params_list url) ⟨none, none, none, none⟩,
      foldl_assign_base_url (params_list url) ⟨none, none, none, none⟩⟩

/-- C1 counterexample: with claiming possible (status OFFLINE) and no
key parameter supplied, the handler still calls `generate` (through
`netdata_random_session_id_get_filename`, because no backing filename
has been recorded yet), contradicting the claim that the token is
never rotated when no key is supplied. -/
theorem C1_counterexample :
    can_be_claimed_of env_c1.status = true ∧
    (parse_claim_params []).key = none ∧
    ClaimEvent.generate ∈ api_events env_c1 st_zero [] := by decide

/-- C5 counterexample: a pure status query (no key supplied, so neither
the 403 nor the 400 condition holds) with claiming possible but every
token-file write failing does not return 200 OK: the handler
dereferences the NULL backing filename (modelled as `crash`). -/
theorem C5_counterexample :
    (parse_claim_params []).key = none ∧
    can_be_claimed_of env_crash.status = true ∧
    api_outcome env_crash st_zero [] = Outcome.crash := by decide

/-- C7 counterexample: a successful claim attempt returns 200 OK with a
report that does not contain the can_be_claimed field (the buffer is
flushed at line 165 and the field is not re-added), contradicting the
claim that every 200 report carries it. -/
theorem C7_counterexample :
    claim_attempted env_ok st_live (parse_claim_params url_claim) = true ∧
    api_outcome env_ok st_live url_claim = Outcome.ok HTTP_RESP_OK (RespBody.json
      [JsonField.cloudStatus .online, JsonField.success true,
       JsonField.message ok_msg, JsonField.agentsV2]) ∧
    hasCanBeClaimed
      [JsonField.cloudStatus .online, JsonField.success true,
       JsonField.message ok_msg, JsonField.agentsV2] = false := by decide

/-- C9: when every file write fails, `generate` still replaces the
in-memory token (which is then usable for matching) and reports
failure without aborting; but the claim that the rest of the request
then completes without a null-path dereference is violated: the
handler reaches the instructions block with a NULL filename and
crashes in `strchr`. -/
theorem C9_write_failure_crash :
    (netdata_random_session_id_generate env_crash9 st_zero).2.1 = false ∧
    (netdata_random_session_id_generate env_crash9 st_zero).1.uuid = env_crash9.fresh 0 ∧
    netdata_random_session_id_matches
      (netdata_random_session_id_generate env_crash9 st_zero).1.uuid uuid_one_str = true ∧
    (netdata_random_session_id_generate env_crash9 st_zero).1.filename = none ∧
    api_outcome env_crash9 st_zero url9 = Outcome.crash := by decide

theorem api_v2_claim_key_none (env : ClaimEnv) (st : TokenState) (url : CStr)
    (hk : (parse_claim_params url).key = none) :
    api_v2_claim env st url = render_instructions env st (can_be_claimed_of env.status)
      [JsonField.cloudStatus env.status,
       JsonField.canBeClaimed (can_be_claimed_of env.status)] [] := by
  unfold api_v2_claim
  simp only [hk]

theorem api_v2_claim_key_some_nocbc (env : ClaimEnv) (st : TokenState) (url : CStr)
    (k : CStr) (hk : (parse_claim_params url).key = some k)
    (hc : can_be_claimed_of env.status = false) :
    api_v2_claim env st url = render_instructions env st false
      [JsonField.cloudStatus env.status, JsonField.canBeClaimed false] [] := by
  unfold api_v2_claim
  simp only [hk, hc, if_false, Bool.false_eq_true]

theorem api_v2_claim_key_some_cbc (env : ClaimEnv) (st : TokenState) (url : CStr)
    (k : CStr) (hk : (parse_claim_params url).key = some k)
    (hc : can_be_claimed_of env.status = true) :
    api_v2_claim env st url = claim_attempt env st (parse_claim_params url) k := by
  unfold api_v2_claim
  simp only [hk, hc, if_true]

theorem claim_attempt_403 (env : ClaimEnv) (st : TokenState) (q : ClaimArgs) (k : CStr)
    (hm : netdata_random_session_id_matches st.uuid k = false) :
    claim_attempt env st q k =
      (Outcome.ok HTTP_RESP_FORBIDDEN (RespBody.text invalid_key_msg),
       (netdata_random_session_id_generate env st).1, [ClaimEvent.generate]) := by
  unfold claim_attempt
  simp only [hm, if_true]

theorem claim_attempt_400 (env : ClaimEnv) (st : TokenState) (q : ClaimArgs) (k : CStr)
    (hm : netdata_random_session_id_matches st.uuid k = true)
    (hb : claim_params_bad q = true) :
    claim_attempt env st q k =
      (Outcome.ok HTTP_RESP_BAD_REQUEST (RespBody.text invalid_params_msg),
       (netdata_random_session_id_generate env st).1, [ClaimEvent.generate]) := by
  unfold claim_attempt
  simp [hm, hb]

theorem claim_attempt_success (env : ClaimEnv) (st : TokenState) (q : ClaimArgs) (k : CStr)
    (hm : netdata_random_session_id_matches st.uuid k = true)
    (hb : claim_params_bad q = false) (hcl : env.claimOk = true) :
    claim_attempt env st q k =
      (Outcome.ok HTTP_RESP_OK (RespBody.json
         [JsonField.cloudStatus env.status2, JsonField.success true,
          JsonField.message ok_msg, JsonField.agentsV2]),
       (netdata_random_session_id_generate env st).1,
       [ClaimEvent.generate, ClaimEvent.claimAgent, ClaimEvent.reload]) := by
  unfold claim_attempt
  simp [hm, hb, hcl]

theorem claim_attempt_failpath (env : ClaimEnv) (st : TokenState) (q : ClaimArgs) (k : CStr)
    (hm : netdata_random_session_id_matches st.uuid k = true)
    (hb : claim_params_bad q = false) (hcl : env.claimOk = false) :
    claim_attempt env st q k =
      render_instructions env (netdata_random_session_id_generate env st).1 true
        [JsonField.cloudStatus env.status2, JsonField.success false,
         JsonField.message env.failureReason]
        [ClaimEvent.generate, ClaimEvent.claimAgent] := by
  unfold claim_attempt
  simp [hm, hb, hcl]

/-- C1 amended: `generate` is called during a request iff claiming is
possible and either a key was supplied (an authentication attempt, on
every exit path) or no backing filename has been recorded yet (the
lazy first generation performed by `get_filename` while rendering the
verification instructions). -/
theorem C1_rotation_iff (env : ClaimEnv) (st : TokenState) (url : CStr) :
    ClaimEvent.generate ∈ api_events env st url ↔
    (can_be_claimed_of env.status = true ∧
      ((parse_claim_params url).key ≠ none ∨ st.filename = none)) := by
  rw [api_events]
  cases hk : (parse_claim_params url).key with
  | none =>
    rw [api_v2_claim_key_none env st url hk, render_instructions_events]
    cases hc : can_be_claimed_of env.status with
    | false => simp [hc]
    | true =>
      cases hf : st.filename with
      | none => simp [hc, hf]
      | some fn => simp [hc, hf]
  | some k =>
    cases hc : can_be_claimed_of env.status with
    | false =>
      rw [api_v2_claim_key_some_nocbc env st url k hk hc, render_instructions_events]
      simp [hc]
    | true =>
      rw [api_v2_claim_key_some_cbc env st url k hk hc]
      by_cases hm : netdata_random_session_id_matches st.uuid k = true
      · by_cases hb : claim_params_bad (parse_claim_params url) = true
        · rw [claim_attempt_400 env st _ k hm hb]
          simp [hc]
        · cases hcl : env.claimOk with
          | true =>
            rw [claim_attempt_success env st _ k hm (by simpa using hb) hcl]
            simp [hc]
          | false =>
            rw [claim_attempt_failpath env st _ k hm (by simpa using hb) hcl,
                render_instructions_events]
            simp [hc]
      · rw [claim_attempt_403 env st _ k (by simpa using hm)]
        simp [hc]

/-- C6: whenever the external claim call happens, the event trace of
the request starts with a `generate` strictly before the `claimAgent`
event: the token is rotated before any externally visible side effect
of claiming. -/
theorem C6_rotate_before_claim (env : ClaimEnv) (st : TokenState) (url : CStr)
    (h : ClaimEvent.claimAgent ∈ api_events env st url) :
    ∃ rest, api_events env st url =
      ClaimEvent.generate :: ClaimEvent.claimAgent :: rest := by
  rw [api_events] at h ⊢
  cases hk : (parse_claim_params url).key with
  | none =>
    rw [api_v2_claim_key_none env st url hk, render_instructions_events] at h
    by_cases hi : (can_be_claimed_of env.status = true ∧ st.filename = none)
    · simp [hi] at h
    · simp [hi] at h
  | some k =>
    cases hc : can_be_claimed_of env.status with
    | false =>
      rw [api_v2_claim_key_some_nocbc env st url k hk hc,
          render_instructions_events] at h
      simp at h
    | true =>
      rw [api_v2_claim_key_some_cbc env st url k hk hc] at h ⊢
      by_cases hm : netdata_random_session_id_matches st.uuid k = true
      · by_cases hb : claim_params_bad (parse_claim_params url) = true
        · rw [claim_attempt_400 env st _ k hm hb] at h
          simp at h
        · cases hcl : env.claimOk with
          | true =>
            rw [claim_attempt_success env st _ k hm (by simpa using hb) hcl]
            exact ⟨[ClaimEvent.reload], rfl⟩
          | false =>
            rw [claim_attempt_failpath env st _ k hm (by simpa using hb) hcl,
                render_instructions_events]
            exact ⟨_, rfl⟩
      · rw [claim_attempt_403 env st _ k (by simpa using hm)] at h
        simp at h

/-- C6 witness: a concrete request on which the claim call happens and
the trace indeed starts with the rotation followed by the claim. -/
theorem C6_rotate_before_claim_witness :
    ∃ rest, api_events env_ok st_live url_claim =
      ClaimEvent.generate :: ClaimEvent.claimAgent :: rest :=
  C6_rotate_before_claim env_ok st_live url_claim (by decide)

/-- C5 amended: the handler returns 403 with body invalid key exactly
when authentication is attempted and fails; 400 with body invalid
parameters exactly when the key matched but the parameters do not
validate; it crashes (NULL filename dereference) exactly under
`crash_cond` (the instructions block reached with no recorded backing
path and failing writes); in every other case it returns 200 OK, and
when the external claim call failed the 200 report carries success
false and the collaborator failure reason as the message. -/
theorem C5_status_codes (env : ClaimEnv) (st : TokenState) (url : CStr) :
    (api_outcome env st url =
        Outcome.ok HTTP_RESP_FORBIDDEN (RespBody.text invalid_key_msg) ↔
      auth_fail env st (parse_claim_params url) = true) ∧
    (api_outcome env st url =
        Outcome.ok HTTP_RESP_BAD_REQUEST (RespBody.text invalid_params_msg) ↔
      validation_fail env st (parse_claim_params url) = true) ∧
    (api_outcome env st url = Outcome.crash ↔
      crash_cond env st (parse_claim_params url) = true) ∧
    (auth_fail env st (parse_claim_params url) = false →
     validation_fail env st (parse_claim_params url) = false →
     crash_cond env st (parse_claim_params url) = false →
     ∃ fields, api_outcome env st url =
       Outcome.ok HTTP_RESP_OK (RespBody.json fields)) ∧
    (claim_attempted env st (parse_claim_params url) = true →
     env.claimOk = false →
     ∀ fields, api_outcome env st url =
         Outcome.ok HTTP_RESP_OK (RespBody.json fields) →
       JsonField.success false ∈ fields ∧
       JsonField.message env.failureReason ∈ fields) := by
  rw [api_outcome]
  cases hk : (parse_claim_params url).key with
  | none =>
    rw [api_v2_claim_key_none env st url hk]
    cases hc : can_be_claimed_of env.status with
    | false =>
      refine ⟨?_, ?_, ?_, ?_, ?_⟩
      · simp [render_instructions, auth_fail, hk, hc,
              HTTP_RESP_OK, HTTP_RESP_FORBIDDEN]
      · simp [render_instructions, validation_fail, hk, hc,
              HTTP_RESP_OK, HTTP_RESP_BAD_REQUEST]
      · simp [render_instructions, crash_cond, hc]
      · intro h1 h2 h3
        obtain ⟨tail, htail, -, -, -⟩ :=
          render_instructions_ok env st false _ [] (by simp [render_instructions])
        exact ⟨_, htail⟩
      · intro hca
        simp [claim_attempted, hc] at hca
    | true =>
      cases hf : st.filename with
      | some fn =>
        have hnc : (render_instructions env st true
            [JsonField.cloudStatus env.status, JsonField.canBeClaimed true] []).1 ≠
            Outcome.crash := by
          intro hcontra
          rw [render_instructions_crash_iff] at hcontra
          simp [hf] at hcontra
        obtain ⟨tail, htail, -, -, -⟩ := render_instructions_ok env st true _ [] hnc
        refine ⟨?_, ?_, ?_, ?_, ?_⟩
        · rw [htail]
          simp [auth_fail, hk, HTTP_RESP_OK, HTTP_RESP_FORBIDDEN]
        · rw [htail]
          simp [validation_fail, hk, HTTP_RESP_OK, HTTP_RESP_BAD_REQUEST]
        · rw [htail]
          simp [crash_cond, hc, hk, hf]
        · intro h1 h2 h3
          exact ⟨_, htail⟩
        · intro hca
          simp [claim_attempted, hk] at hca
      | none =>
        cases hw : env.writeOk st.gen_count with
        | true =>
          have hnc : (render_instructions env st true
              [JsonField.cloudStatus env.status, JsonField.canBeClaimed true] []).1 ≠
              Outcome.crash := by
            intro hcontra
            rw [render_instructions_crash_iff] at hcontra
            simp [hw] at hcontra
          obtain ⟨tail, htail, -, -, -⟩ := render_instructions_ok env st true _ [] hnc
          refine ⟨?_, ?_, ?_, ?_, ?_⟩
          · rw [htail]
            simp [auth_fail, hk, HTTP_RESP_OK, HTTP_RESP_FORBIDDEN]
          · rw [htail]
            simp [validation_fail, hk, HTTP_RESP_OK, HTTP_RESP_BAD_REQUEST]
          · rw [htail]
            simp [crash_cond, hc, hk, hw]
          · intro h1 h2 h3
            exact ⟨_, htail⟩
          · intro hca
            simp [claim_attempted, hk] at hca
        | false =>
          have hcr : (render_instructions env st true
              [JsonField.cloudStatus env.status, JsonField.canBeClaimed true] []).1 =
              Outcome.crash := by
            rw [render_instructions_crash_iff]
            simp [hf, hw]
          refine ⟨?_, ?_, ?_, ?_, ?_⟩
          · rw [hcr]
            simp [auth_fail, hk]
          · rw [hcr]
            simp [validation_fail, hk]
          · rw [hcr]
            simp [crash_cond, hc, hk, hf, hw]
          · intro h1 h2 h3
            simp [crash_cond, hc, hk, hf, hw] at h3
          · intro hca
            simp [claim_attempted, hk] at hca
  | some k =>
    cases hc : can_be_claimed_of env.status with
    | false =>
      rw [api_v2_claim_key_some_nocbc env st url k hk hc]
      refine ⟨?_, ?_, ?_, ?_, ?_⟩
      · simp [render_instructions, auth_fail, hc,
              HTTP_RESP_OK, HTTP_RESP_FORBIDDEN]
      · simp [render_instructions, validation_fail, hc,
              HTTP_RESP_OK, HTTP_RESP_BAD_REQUEST]
      · simp [render_instructions, crash_cond, hc]
      · intro h1 h2 h3
        obtain ⟨tail, htail, -, -, -⟩ :=
          render_instructions_ok env st false _ [] (by simp [render_instructions])
        exact ⟨_, htail⟩
      · intro hca
        simp [claim_attempted, hc] at hca
    | true =>
      rw [api_v2_claim_key_some_cbc env st url k hk hc]
      by_cases hm : netdata_random_session_id_matches st.uuid k = true
      · by_cases hb : claim_params_bad (parse_claim_params url) = true
        · rw [claim_attempt_400 env st _ k hm hb]
          refine ⟨?_, ?_, ?_, ?_, ?_⟩
          · simp [auth_fail, hk, hm, HTTP_RESP_FORBIDDEN, HTTP_RESP_BAD_REQUEST]
          · simp [validation_fail, hk, hc, hm, hb]
          · simp [crash_cond, hc, hk, claim_attempted, hb]
          · intro h1 h2 h3
            simp [validation_fail, hk, hc, hm, hb] at h2
          · intro hca
            simp [claim_attempted, hk, hb] at hca
        · have hb2 : claim_params_bad (parse_claim_params url) = false := by
            simpa using hb
          cases hcl : env.claimOk with
          | true =>
            rw [claim_attempt_success env st _ k hm hb2 hcl]
            refine ⟨?_, ?_, ?_, ?_, ?_⟩
            · simp [auth_fail, hk, hm, HTTP_RESP_OK, HTTP_RESP_FORBIDDEN]
            · simp [validation_fail, hk, hm, hb2, HTTP_RESP_OK, HTTP_RESP_BAD_REQUEST]
            · simp [crash_cond, hc, hk, hcl]
            · intro h1 h2 h3
              exact ⟨_, rfl⟩
            · intro hca hcl2
              exact absurd hcl2 (by simp)
          | false =>
            rw [claim_attempt_failpath env st _ k hm hb2 hcl]
            have hgen : (netdata_random_session_id_generate env st).1 =
                ⟨env.fresh st.gen_count,
                 if env.writeOk st.gen_count then some (session_id_filename env)
                 else st.filename,
                 st.gen_count + 1⟩ := rfl
            cases hw : env.writeOk st.gen_count with
            | true =>
              have hst1 : (netdata_random_session_id_generate env st).1 =
                  ⟨env.fresh st.gen_count, some (session_id_filename env),
                   st.gen_count + 1⟩ := by rw [hgen, hw]; simp
              rw [hst1]
              have hnc : (render_instructions env
                  ⟨env.fresh st.gen_count, some (session_id_filename env),
                   st.gen_count + 1⟩ true
                  [JsonField.cloudStatus env.status2, JsonField.success false,
                   JsonField.message env.failureReason]
                  [ClaimEvent.generate, ClaimEvent.claimAgent]).1 ≠ Outcome.crash := by
                intro hcontra
                rw [render_instructions_crash_iff] at hcontra
                simp at hcontra
              obtain ⟨tail, htail, -, -, -⟩ := render_instructions_ok env _ true _ _ hnc
              refine ⟨?_, ?_, ?_, ?_, ?_⟩
              · rw [htail]
                simp [auth_fail, hk, hm, HTTP_RESP_OK, HTTP_RESP_FORBIDDEN]
              · rw [htail]
                simp [validation_fail, hk, hm, hb2, HTTP_RESP_OK, HTTP_RESP_BAD_REQUEST]
              · rw [htail]
                simp [crash_cond, hk, hw]
              · intro h1 h2 h3
                exact ⟨_, htail⟩
              · intro hca hcl2 fields hfe
                rw [htail] at hfe
                have : fields = [JsonField.cloudStatus env.status2,
                    JsonField.success false,
                    JsonField.message env.failureReason] ++ tail := by
                  have := (Outcome.ok.injEq _ _ _ _).mp hfe
                  have := (RespBody.json.injEq _ _).mp this.2
                  exact this.symm
                rw [this]
                simp
            | false =>
              cases hf : st.filename with
              | some fn =>
                have hst1 : (netdata_random_session_id_generate env st).1 =
                    ⟨env.fresh st.gen_count, some fn, st.gen_count + 1⟩ := by
                  rw [hgen, hw, hf]; simp
                rw [hst1]
                have hnc : (render_instructions env
                    ⟨env.fresh st.gen_count, some fn, st.gen_count + 1⟩ true
                    [JsonField.cloudStatus env.status2, JsonField.success false,
                     JsonField.message env.failureReason]
                    [ClaimEvent.generate, ClaimEvent.claimAgent]).1 ≠ Outcome.crash := by
                  intro hcontra
                  rw [render_instructions_crash_iff] at hcontra
                  simp at hcontra
                obtain ⟨tail, htail, -, -, -⟩ := render_instructions_ok env _ true _ _ hnc
                refine ⟨?_, ?_, ?_, ?_, ?_⟩
                · rw [htail]
                  simp [auth_fail, hk, hm, HTTP_RESP_OK, HTTP_RESP_FORBIDDEN]
                · rw [htail]
                  simp [validation_fail, hk, hm, hb2, HTTP_RESP_OK, HTTP_RESP_BAD_REQUEST]
                · rw [htail]
                  simp [crash_cond, hk, hf]
                · intro h1 h2 h3
                  exact ⟨_, htail⟩
                · intro hca hcl2 fields hfe
                  rw [htail] at hfe
                  have : fields = [JsonField.cloudStatus env.status2,
                      JsonField.success false,
                      JsonField.message env.failureReason] ++ tail := by
                    have := (Outcome.ok.injEq _ _ _ _).mp hfe
                    have := (RespBody.json.injEq _ _).mp this.2
                    exact this.symm
                  rw [this]
                  simp
              | none =>
                have hst1 : (netdata_random_session_id_generate env st).1 =
                    ⟨env.fresh st.gen_count, none, st.gen_count + 1⟩ := by
                  rw [hgen, hw, hf]; simp
                rw [hst1]
                cases hw2 : env.writeOk (st.gen_count + 1) with
                | true =>
                  have hnc : (render_instructions env
                      ⟨env.fresh st.gen_count, none, st.gen_count + 1⟩ true
                      [JsonField.cloudStatus env.status2, JsonField.success false,
                       JsonField.message env.failureReason]
                      [ClaimEvent.generate, ClaimEvent.claimAgent]).1 ≠
                      Outcome.crash := by
                    intro hcontra
                    rw [render_instructions_crash_iff] at hcontra
                    simp [hw2] at hcontra
                  obtain ⟨tail, htail, -, -, -⟩ :=
                    render_instructions_ok env _ true _ _ hnc
                  refine ⟨?_, ?_, ?_, ?_, ?_⟩
                  · rw [htail]
                    simp [auth_fail, hk, hm, HTTP_RESP_OK, HTTP_RESP_FORBIDDEN]
                  · rw [htail]
                    simp [validation_fail, hk, hm, hb2,
                          HTTP_RESP_OK, HTTP_RESP_BAD_REQUEST]
                  · rw [htail]
                    simp [crash_cond, hk, hw2]
                  · intro h1 h2 h3
                    exact ⟨_, htail⟩
                  · intro hca hcl2 fields hfe
                    rw [htail] at hfe
                    have : fields = [JsonField.cloudStatus env.status2,
                        JsonField.success false,
                        JsonField.message env.failureReason] ++ tail := by
                      have := (Outcome.ok.injEq _ _ _ _).mp hfe
                      have := (RespBody.json.injEq _ _).mp this.2
                      exact this.symm
                    rw [this]
                    simp
                | false =>
                  have hcr : (render_instructions env
                      ⟨env.fresh st.gen_count, none, st.gen_count + 1⟩ true
                      [JsonField.cloudStatus env.status2, JsonField.success false,
                       JsonField.message env.failureReason]
                      [ClaimEvent.generate, ClaimEvent.claimAgent]).1 =
                      Outcome.crash := by
                    rw [render_instructions_crash_iff]
                    simp [hw2]
                  refine ⟨?_, ?_, ?_, ?_, ?_⟩
                  · rw [hcr]
                    simp [auth_fail, hk, hm]
                  · rw [hcr]
                    simp [validation_fail, hk, hm, hb2]
                  · rw [hcr]
                    simp [crash_cond, hk, hc, claim_attempted, hm, hb2, hcl,
                          hw, hf, hw2]
                  · intro h1 h2 h3
                    simp [crash_cond, hk, hc, claim_attempted, hm, hb2, hcl,
                          hw, hf, hw2] at h3
                  · intro hca hcl2 fields hfe
                    rw [hcr] at hfe
                    exact absurd hfe (by simp)
      · have hm2 : netdata_random_session_id_matches st.uuid k = false := by
          simpa using hm
        rw [claim_attempt_403 env st _ k hm2]
        refine ⟨?_, ?_, ?_, ?_, ?_⟩
        · simp [auth_fail, hk, hc, hm2]
        · simp [validation_fail, hk, hm2, HTTP_RESP_FORBIDDEN, HTTP_RESP_BAD_REQUEST]
        · simp [crash_cond, hc, hk, claim_attempted, hm2]
        · intro h1 h2 h3
          simp [auth_fail, hk, hc, hm2] at h1
        · intro hca
          simp [claim_attempted, hk, hm2] at hca

/-- C5 witness: a pure status query with working writes returns 200 OK. -/
theorem C5_status_codes_witness :
    ∃ fields, api_outcome env_c1 st_zero [] =
      Outcome.ok HTTP_RESP_OK (RespBody.json fields) :=
  (C5_status_codes env_c1 st_zero []).2.2.2.1 (by decide) (by decide) (by decide)

theorem hasCanBeClaimed_append (a b : List JsonField) :
    hasCanBeClaimed (a ++ b) = (hasCanBeClaimed a || hasCanBeClaimed b) := by
  simp [hasCanBeClaimed, List.any_append]

theorem hasSuccess_append (a b : List JsonField) :
    hasSuccess (a ++ b) = (hasSuccess a || hasSuccess b) := by
  simp [hasSuccess, List.any_append]

theorem hasMessage_append (a b : List JsonField) :
    hasMessage (a ++ b) = (hasMessage a || hasMessage b) := by
  simp [hasMessage, List.any_append]

/-- C7 amended: every 200 OK report contains the can_be_claimed field
exactly when no claim attempt occurred, and contains the success and
message fields exactly when a claim attempt occurred (after a claim
attempt the buffer is rebuilt without can_be_claimed). -/
theorem C7_report_fields (env : ClaimEnv) (st : TokenState) (url : CStr)
    (fields : List JsonField)
    (h : api_outcome env st url = Outcome.ok HTTP_RESP_OK (RespBody.json fields)) :
    hasCanBeClaimed fields = !claim_attempted env st (parse_claim_params url) ∧
    hasSuccess fields = claim_attempted env st (parse_claim_params url) ∧
    hasMessage fields = claim_attempted env st (parse_claim_params url) := by
  rw [api_outcome] at h
  cases hk : (parse_claim_params url).key with
  | none =>
    rw [api_v2_claim_key_none env st url hk] at h
    have hnc : (render_instructions env st (can_be_claimed_of env.status)
        [JsonField.cloudStatus env.status,
         JsonField.canBeClaimed (can_be_claimed_of env.status)] []).1 ≠
        Outcome.crash := by
      rw [h]
      simp
    obtain ⟨tail, htail, ht1, ht2, ht3⟩ := render_instructions_ok env st _ _ [] hnc
    rw [htail] at h
    have hfe : fields = [JsonField.cloudStatus env.status,
        JsonField.canBeClaimed (can_be_claimed_of env.status)] ++ tail := by
      have h2 := (Outcome.ok.injEq _ _ _ _).mp h
      exact ((RespBody.json.injEq _ _).mp h2.2).symm
    rw [hfe, hasCanBeClaimed_append, hasSuccess_append, hasMessage_append,
        ht1, ht2, ht3]
    simp [hasCanBeClaimed, hasSuccess, hasMessage, claim_attempted, hk]
  | some k =>
    cases hc : can_be_claimed_of env.status with
    | false =>
      rw [api_v2_claim_key_some_nocbc env st url k hk hc] at h
      have hnc : (render_instructions env st false
          [JsonField.cloudStatus env.status, JsonField.canBeClaimed false] []).1 ≠
          Outcome.crash := by
        rw [h]
        simp
      obtain ⟨tail, htail, ht1, ht2, ht3⟩ := render_instructions_ok env st _ _ [] hnc
      rw [htail] at h
      have hfe : fields = [JsonField.cloudStatus env.status,
          JsonField.canBeClaimed false] ++ tail := by
        have h2 := (Outcome.ok.injEq _ _ _ _).mp h
        exact ((RespBody.json.injEq _ _).mp h2.2).symm
      rw [hfe, hasCanBeClaimed_append, hasSuccess_append, hasMessage_append,
          ht1, ht2, ht3]
      simp [hasCanBeClaimed, hasSuccess, hasMessage, claim_attempted, hc]
    | true =>
      rw [api_v2_claim_key_some_cbc env st url k hk hc] at h
      by_cases hm : netdata_random_session_id_matches st.uuid k = true
      · by_cases hb : claim_params_bad (parse_claim_params url) = true
        · rw [claim_attempt_400 env st _ k hm hb] at h
          exact absurd h (by simp [HTTP_RESP_OK, HTTP_RESP_BAD_REQUEST])
        · have hb2 : claim_params_bad (parse_claim_params url) = false := by
            simpa using hb
          cases hcl : env.claimOk with
          | true =>
            rw [claim_attempt_success env st _ k hm hb2 hcl] at h
            have hfe : fields = [JsonField.cloudStatus env.status2,
                JsonField.success true, JsonField.message ok_msg,
                JsonField.agentsV2] := by
              have h2 := (Outcome.ok.injEq _ _ _ _).mp h
              exact ((RespBody.json.injEq _ _).mp h2.2).symm
            rw [hfe]
            simp [hasCanBeClaimed, hasSuccess, hasMessage, claim_attempted,
                  hk, hc, hm, hb2]
          | false =>
            rw [claim_attempt_failpath env st _ k hm hb2 hcl] at h
            have hnc : (render_instructions env
                (netdata_random_session_id_generate env st).1 true
                [JsonField.cloudStatus env.status2, JsonField.success false,
                 JsonField.message env.failureReason]
                [ClaimEvent.generate, ClaimEvent.claimAgent]).1 ≠
                Outcome.crash := by
              rw [h]
              simp
            obtain ⟨tail, htail, ht1, ht2, ht3⟩ :=
              render_instructions_ok env _ true _ _ hnc
            rw [htail] at h
            have hfe : fields = [JsonField.cloudStatus env.status2,
                JsonField.success false,
                JsonField.message env.failureReason] ++ tail := by
              have h2 := (Outcome.ok.injEq _ _ _ _).mp h
              exact ((RespBody.json.injEq _ _).mp h2.2).symm
            rw [hfe, hasCanBeClaimed_append, hasSuccess_append, hasMessage_append,
                ht1, ht2, ht3]
            simp [hasCanBeClaimed, hasSuccess, hasMessage, claim_attempted,
                  hk, hc, hm, hb2]
      · have hm2 : netdata_random_session_id_matches st.uuid k = false := by
          simpa using hm
        rw [claim_attempt_403 env st _ k hm2] at h
        exact absurd h (by simp [HTTP_RESP_OK, HTTP_RESP_FORBIDDEN])

/-- C7 witness: instantiation at a status query on a BANNED host. -/
theorem C7_report_fields_witness :
    hasCanBeClaimed [JsonField.cloudStatus .banned, JsonField.canBeClaimed false,
      JsonField.agentsV2] =
      !claim_attempted env_banned st_zero (parse_claim_params []) ∧
    hasSuccess [JsonField.cloudStatus .banned, JsonField.canBeClaimed false,
      JsonField.agentsV2] =
      claim_attempted env_banned st_zero (parse_claim_params []) ∧
    hasMessage [JsonField.cloudStatus .banned, JsonField.canBeClaimed false,
      JsonField.agentsV2] =
      claim_attempted env_banned st_zero (parse_claim_params []) :=
  C7_report_fields env_banned st_zero []
    [JsonField.cloudStatus .banned, JsonField.canBeClaimed false,
     JsonField.agentsV2] (by decide)
